import Mathlib

set_option autoImplicit false

namespace Nova

/-!
Shallow embedding of the voice-interaction controller of the NOVA web UI
(`main.js`): the pure string helpers (echo similarity filter, Levenshtein
distance, playback truncation) and the voice session as an explicit
event-step function over the module-level mutable state.  Definitions come
first, then the supporting lemmas, then one theorem per specification claim.
-/

/-! ### String helpers from main.js -/

/-- JS `s.includes(pat)` on lists of characters: `jsIncludesAux pat l` decides
whether `pat` occurs as a contiguous sublist of `l`. -/
def jsIncludesAux (pat : List Char) : List Char → Bool
  | [] => pat.isEmpty
  | c :: cs => pat.isPrefixOf (c :: cs) || jsIncludesAux pat cs

/-- `jsIncludes s pat` models the JS expression `s.includes(pat)`. -/
def jsIncludes (s pat : String) : Bool := jsIncludesAux pat.data s.data

/-- JS `s.toLowerCase()`; the same character map as `String.toLower`,
written over the character list so that it reduces in the kernel. -/
def jsToLower (s : String) : String := String.mk (s.data.map Char.toLower)

/-- JS `s.trim()`; the same whitespace trimming as `String.trim`, written
over the character list so that it reduces in the kernel. -/
def jsTrim (s : String) : String :=
  String.mk (((s.data.dropWhile Char.isWhitespace).reverse.dropWhile
    Char.isWhitespace).reverse)

/-- JS `s.slice(0, n)`; the same prefix as `String.take`, written over the
character list so that it reduces in the kernel. -/
def jsSlice (s : String) (n : Nat) : String := String.mk (s.data.take n)

/-- Worker for `jsSplitWs`: accumulates the current token (reversed);
`skipping` is true while inside a whitespace run whose first character has
already emitted the pending token.  This reproduces JS `s.split(/\s+/)`,
which yields an empty leading piece when the string starts with whitespace
and an empty trailing piece when it ends with one. -/
def jsSplitWsAux : List Char → List Char → Bool → List String
  | [], acc, _ => [String.mk acc.reverse]
  | c :: cs, acc, skipping =>
    if c.isWhitespace then
      if skipping then jsSplitWsAux cs acc true
      else String.mk acc.reverse :: jsSplitWsAux cs [] true
    else jsSplitWsAux cs (c :: acc) false

/-- JS `s.split(/\s+/)`. -/
def jsSplitWs (s : String) : List String := jsSplitWsAux s.data [] false

/-- `split(/\s+/).filter(word => word.length > 3)` from
`isTooSimilarToLastAssistant` in main.js. -/
def tokenizeLong (s : String) : List String :=
  (jsSplitWs s).filter (fun w => w.length > 3)

/-! ### Levenshtein distance (main.js `levenshteinDistance`) -/

/-- One row of the Levenshtein matrix built by `levenshteinDistance` in
main.js.  At column `j` (character `x` of `a`), `left` is the freshly
computed `matrix[i][j-1]`, and the remaining previous-row cells are
`pd :: prest` with `pd = matrix[i-1][j-1]` and `prest.headD 0 = matrix[i-1][j]`;
the cell is `matrix[i-1][j-1]` when `b.charAt(i-1) === a.charAt(j-1)` and
otherwise `min(matrix[i-1][j-1]+1, matrix[i][j-1]+1, matrix[i-1][j]+1)`,
in the source's argument order. -/
def levRowAux : List Char → Char → Nat → List Nat → List Nat
  | [], _, _, _ => []
  | _ :: _, _, _, [] => []
  | x :: as, y, left, pd :: prest =>
    let cell := if y = x then pd else min (pd + 1) (min (left + 1) (prest.headD 0 + 1))
    cell :: levRowAux as y cell prest

/-- The outer row loop of `levenshteinDistance` in main.js: each character `y`
of `b` produces row `i`, whose first column is seeded with `matrix[i][0] = i`. -/
def levLoop (a : List Char) : List Char → Nat → List Nat → List Nat
  | [], _, prev => prev
  | y :: bs, i, prev => levLoop a bs (i + 1) (i :: levRowAux a y i prev)

/-- `levenshteinDistance(a, b)` from main.js: the early returns for empty
inputs, then the dynamic-programming table with rows indexed by `b` and
columns indexed by `a`, returning `matrix[b.length][a.length]` (the last
cell of the last row). -/
def levenshteinDistance (a b : String) : Nat :=
  if a.length = 0 then b.length
  else if b.length = 0 then a.length
  else (levLoop a.data b.data 1 (List.range (a.data.length + 1))).getLastD 0

/-- Recurrence satisfied by the cells of the Levenshtein matrix: a cell for a
pair of prefixes is the edit distance of the reversed prefixes, computed here
by peeling the first characters with the same three insertion / deletion /
substitution terms as each matrix cell of the source. -/
def lev : List Char → List Char → Nat
  | [], ys => ys.length
  | x :: xs, [] => (x :: xs).length
  | x :: xs, y :: ys =>
    if x = y then lev xs ys
    else 1 + min (lev xs (y :: ys)) (min (lev (x :: xs) ys) (lev xs ys))
termination_by xs ys => xs.length + ys.length
decreasing_by
  all_goals simp_arith

/-! ### Echo similarity filter (main.js `isTooSimilarToLastAssistant`) -/

/-- `isTooSimilarToLastAssistant(transcript)` from main.js, with the module
global `lastAssistantText` passed explicitly as the first argument.  The JS
float comparisons `x > y * 0.8` and the ratio test `m / n > 0.8` are modelled
exactly over the rationals as `5 * x > 4 * y` and `5 * m > 4 * n`. -/
def isTooSimilarToLastAssistant (lastAssistantText transcript : String) : Bool :=
  if lastAssistantText = "" ∨ transcript = "" then false
  else
    let assistantLower := jsToLower lastAssistantText
    let transcriptLower := jsToLower transcript
    if assistantLower = transcriptLower then true
    else if jsIncludes assistantLower transcriptLower &&
        decide (5 * transcriptLower.length > 4 * assistantLower.length) then true
    else
      let assistantWords := tokenizeLong assistantLower
      let transcriptWords := tokenizeLong transcriptLower
      if assistantWords.length = 0 ∨ transcriptWords.length = 0 then false
      else
        let matchingWords := transcriptWords.filter (fun word =>
          assistantWords.any (fun assistantWord =>
            jsIncludes assistantWord word || jsIncludes word assistantWord ||
              decide (levenshteinDistance word assistantWord ≤ 2)))
        decide (5 * matchingWords.length >
          4 * min assistantWords.length transcriptWords.length)

/-- Rule 3 of the similarity filter as the specification words it: "Compute
the fraction of candidate tokens that match a reference token, where match
means exact substring containment either direction OR edit distance ≤ 2.
If that fraction exceeds 0.8, echo."  The denominator is the number of
candidate tokens.  This definition follows the spec's words and is compared
against the source's `isTooSimilarToLastAssistant`. -/
def specRule3Echo (candidate reference : String) : Bool :=
  let referenceWords := tokenizeLong (jsToLower reference)
  let candidateWords := tokenizeLong (jsToLower candidate)
  if referenceWords.length = 0 ∨ candidateWords.length = 0 then false
  else
    let matchingWords := candidateWords.filter (fun word =>
      referenceWords.any (fun referenceWord =>
        jsIncludes referenceWord word || jsIncludes word referenceWord ||
          decide (levenshteinDistance word referenceWord ≤ 2)))
    decide (5 * matchingWords.length > 4 * candidateWords.length)

/-- The 70%-word-overlap check (filter 4 of `recognition.onresult`): the
percentage comparison `(m / len) * 100 > 70` over the rationals is
`10 * m > 7 * len`; JS yields percentage 0 when there are no tokens. -/
def assistantEchoPercentHigh (lastAssistantText transcript : String) : Bool :=
  let assistantWords := jsSplitWs (jsToLower lastAssistantText)
  let transcriptWords := jsSplitWs transcript
  let matchingWords := transcriptWords.filter (fun word =>
    assistantWords.any (fun assistantWord =>
      jsIncludes assistantWord word || jsIncludes word assistantWord))
  if transcriptWords.length = 0 then false
  else decide (10 * matchingWords.length > 7 * transcriptWords.length)

/-! ### Voice session state machine (main.js module state and handlers) -/

/-- `VOICE_STATE` from main.js. -/
inductive VoiceState
  | idle
  | listening
  | thinking
  | speaking
  | ready
  | error
deriving DecidableEq, Repr

/-- `fatalErrors` from main.js. -/
def fatalErrors : List String := ["not-allowed", "permission-denied", "service-not-allowed"]

/-- `softErrors` from main.js. -/
def softErrors : List String := ["network", "language-not-supported", "bad-grammar"]

/-- `MAX_TTS_CHARS` from `playAssistantAudio` in main.js. -/
def MAX_TTS_CHARS : Nat := 2800

/-- The module-level mutable variables of main.js that the voice session
reads and writes.  Timers are tracked as pending flags (a timer callback can
only fire while its flag is set; `clearTimeout` resets it).  `inFlight`
counts outstanding `/api/chat` fetches.  `ttsText` records the text handed
to the last created `SpeechSynthesisUtterance`.  `lastAssistantDOM` mirrors
the text content of the last assistant message appended to the DOM by
`addMessage`.  `recognitionExists` records whether the `SpeechRecognition`
instance has been created, and `ttsSupported` whether `speechSynthesis`
exists in the environment. -/
structure VState where
  isAlwaysListening : Bool
  isRecording : Bool
  isManuallyStopping : Bool
  silenceTimer : Bool
  voiceBuffer : String
  cooldownTimer : Bool
  isAssistantSpeaking : Bool
  lastAssistantMessage : String
  lastAssistantText : String
  cooldownAfterSpeaking : Bool
  currentVoiceState : VoiceState
  voiceTextLabel : String
  liveTranscript : String
  isProcessingVoice : Bool
  sendingInProgress : Bool
  isLoading : Bool
  inFlight : Nat
  lastAssistantDOM : Option String
  recognitionExists : Bool
  ttsSupported : Bool
  ttsText : String
deriving DecidableEq, Repr

/-- The module state right after main.js is loaded. -/
def initState : VState where
  isAlwaysListening := false
  isRecording := false
  isManuallyStopping := false
  silenceTimer := false
  voiceBuffer := ""
  cooldownTimer := false
  isAssistantSpeaking := false
  lastAssistantMessage := ""
  lastAssistantText := ""
  cooldownAfterSpeaking := false
  currentVoiceState := .idle
  voiceTextLabel := ""
  liveTranscript := ""
  isProcessingVoice := false
  sendingInProgress := false
  isLoading := false
  inFlight := 0
  lastAssistantDOM := none
  recognitionExists := true
  ttsSupported := true
  ttsText := ""

/-- The browser events that drive the voice session: the UI button handlers,
the recognizer callbacks, the timer callbacks, the settlement of the
`/api/chat` fetch, and the speech-synthesis callbacks. -/
inductive VEvent
  | startSession
  | stopSession
  | recStart
  | recResult (raw : String) (isFinal : Bool)
  | recError (code : String)
  | recEnd
  | timerFire
  | cooldownFire
  | retryFire
  | restartCheckFire
  | sendOk (resp : String)
  | sendHttpErr
  | sendNetErr
  | ttsEnd
  | ttsErr
  | buttonSend (text : String)
deriving DecidableEq, Repr

/-- `updateVoiceModalState(state, payload)` from main.js: records the state
and updates the status text and the live transcript exactly as the `switch`
does (`THINKING`, `ERROR` and the default branch clear the transcript;
`SPEAKING` shows `payload.text` when it is a non-empty string; `ERROR` shows
`payload.message` or the default message). -/
def updateVoiceModalState (s : VState) (state : VoiceState)
    (payloadText payloadMessage : Option String) : VState :=
  let s := { s with currentVoiceState := state }
  match state with
  | .listening => { s with voiceTextLabel := "Estoy capturando lo que dices." }
  | .thinking => { s with
      voiceTextLabel := "Procesando tu mensaje, espera un momento.",
      liveTranscript := "" }
  | .speaking => { s with
      voiceTextLabel := "Escucha la respuesta, luego podrás hablar de nuevo.",
      liveTranscript :=
        match payloadText with
        | some t => if t ≠ "" then t else s.liveTranscript
        | none => s.liveTranscript }
  | .ready => { s with voiceTextLabel := "Cuando quieras, puedes decirme otra cosa." }
  | .error => { s with
      voiceTextLabel :=
        match payloadMessage with
        | some m => if m ≠ "" then m else "Intenta hablar de nuevo o revisa tu micrófono."
        | none => "Intenta hablar de nuevo o revisa tu micrófono.",
      liveTranscript := "" }
  | .idle => { s with voiceTextLabel := "", liveTranscript := "" }

/-- `restartRecognitionAfterSpeaking()` from main.js: clears the cooldown
timer, returns if continuous mode is off or the recognizer was never
created, otherwise goes to `READY` and schedules the 1200 ms cooldown
restart. -/
def restartRecognitionAfterSpeaking (s : VState) : VState :=
  let s := { s with cooldownTimer := false }
  if ¬s.isAlwaysListening ∨ ¬s.recognitionExists then s
  else
    let s := updateVoiceModalState s .ready none none
    { s with cooldownTimer := true }

/-- The synchronous prefix of `sendMessageToNova(text)` in main.js, up to the
`fetch('/api/chat', …)` suspension point: the guard
`if (!text.trim() || isProcessingVoice) return;` and, when it passes,
`isProcessingVoice = true` and the start of the HTTP request.  Returns the
state and whether a request was issued. -/
def sendMessageToNovaCall (s : VState) (text : String) : VState × Bool :=
  if jsTrim text = "" ∨ s.isProcessingVoice then (s, false)
  else ({ s with isProcessingVoice := true, inFlight := s.inFlight + 1 }, true)

/-- `playAssistantAudio(text)` from main.js: when `speechSynthesis` is
missing, go `READY` and take the restart path with no audio; otherwise
truncate the text to `MAX_TTS_CHARS` plus an ellipsis for the utterance
only, set the speaking flag, store the full text as `lastAssistantText`,
and show the full text in the modal and the live transcript. -/
def playAssistantAudioStep (s : VState) (text : String) : VState :=
  if ¬s.ttsSupported then
    restartRecognitionAfterSpeaking (updateVoiceModalState s .ready none none)
  else
    let ttsText := if text.length > MAX_TTS_CHARS
      then (jsSlice text MAX_TTS_CHARS).push '…' else text
    let s := { s with isAssistantSpeaking := true, lastAssistantText := text }
    let s := updateVoiceModalState s .speaking (some text) none
    { s with liveTranscript := text, ttsText := ttsText }

/-- Result of one event-handler run: the new module state, whether the
silence-timer callback invoked `sendMessageToNova` with the buffered
utterance (`dispatched`), and whether a restart of capture was attempted —
`recognition.start()` called or a restart scheduled through
`restartRecognitionAfterSpeaking` (`restarted`). -/
structure Step where
  state : VState
  dispatched : Bool
  restarted : Bool
deriving DecidableEq, Repr

/-- One event-handler execution of main.js, run to completion (the
single-threaded event loop runs every handler atomically).  Each branch
follows the corresponding source handler statement by statement. -/
def step (s : VState) : VEvent → Step
  | .startSession =>
    let s := { s with
      isAlwaysListening := true
      isManuallyStopping := false
      isAssistantSpeaking := false
      voiceBuffer := ""
      lastAssistantText := "" }
    let s := updateVoiceModalState s .listening none none
    let s := { s with recognitionExists := true }
    if s.isRecording then
      ⟨updateVoiceModalState s .error none (some "No pude acceder al micrófono."), false, true⟩
    else
      ⟨s, false, true⟩
  | .stopSession =>
    let s := { s with
      isAlwaysListening := false
      isManuallyStopping := true
      cooldownAfterSpeaking := false }
    let s := { s with
      silenceTimer := false
      cooldownTimer := false
      voiceBuffer := ""
      liveTranscript := "" }
    ⟨s, false, false⟩
  | .recStart =>
    ⟨updateVoiceModalState { s with isRecording := true } .listening none none, false, false⟩
  | .recResult raw _isFinal =>
    if s.isAssistantSpeaking ∨ s.cooldownAfterSpeaking then
      ⟨{ s with voiceBuffer := "", silenceTimer := false, liveTranscript := "" }, false, false⟩
    else
      let transcript := jsToLower (jsTrim raw)
      if isTooSimilarToLastAssistant s.lastAssistantText transcript then
        ⟨{ s with liveTranscript := "", voiceBuffer := "", silenceTimer := false }, false, false⟩
      else if s.lastAssistantMessage ≠ "" ∧ transcript ≠ "" ∧
          jsIncludes s.lastAssistantMessage transcript then
        ⟨s, false, false⟩
      else if (match s.lastAssistantDOM with
          | some domRaw => jsIncludes (jsToLower (jsTrim domRaw)) transcript
          | none => false) then
        ⟨s, false, false⟩
      else if s.lastAssistantText ≠ "" ∧
          assistantEchoPercentHigh s.lastAssistantText transcript then
        ⟨s, false, false⟩
      else
        let s := { s with voiceBuffer := transcript }
        let text := jsTrim s.voiceBuffer
        if text = "" then ⟨s, false, false⟩
        else
          let s := if s.currentVoiceState = .ready
            then updateVoiceModalState s .listening none none else s
          let s := { s with liveTranscript := text }
          ⟨{ s with silenceTimer := true }, false, false⟩
  | .recError code =>
    if code ∈ fatalErrors then
      let s := { s with isAlwaysListening := false, isManuallyStopping := true }
      let s := updateVoiceModalState s .error none none
      ⟨{ s with liveTranscript := "" }, false, false⟩
    else if code ∈ softErrors then
      let s := { s with liveTranscript := "" }
      if s.isAlwaysListening ∧ ¬s.isManuallyStopping then
        ⟨updateVoiceModalState s .listening none none, false, true⟩
      else ⟨s, false, false⟩
    else if code = "no-speech" ∧ s.isAlwaysListening then
      ⟨restartRecognitionAfterSpeaking { s with liveTranscript := "" }, false, true⟩
    else
      let s := { s with liveTranscript := "" }
      if s.isAlwaysListening ∧ ¬s.isManuallyStopping then
        ⟨updateVoiceModalState s .listening none none, false, true⟩
      else ⟨s, false, false⟩
  | .recEnd =>
    let s := { s with isRecording := false }
    if s.isManuallyStopping then
      ⟨updateVoiceModalState { s with isManuallyStopping := false } .ready none none,
        false, false⟩
    else if s.isAssistantSpeaking then
      ⟨s, false, false⟩
    else if s.isAlwaysListening then
      ⟨restartRecognitionAfterSpeaking s, false, true⟩
    else ⟨s, false, false⟩
  | .timerFire =>
    if ¬s.silenceTimer then ⟨s, false, false⟩
    else
      let s := { s with silenceTimer := false }
      let finalText := jsTrim s.voiceBuffer
      if ¬s.isAlwaysListening then ⟨s, false, false⟩
      else if finalText = "" then ⟨s, false, false⟩
      else if s.sendingInProgress then ⟨s, false, false⟩
      else
        let s := updateVoiceModalState s .thinking none none
        let s := { s with liveTranscript := "" }
        let s := { s with sendingInProgress := true }
        let r := sendMessageToNovaCall s finalText
        let s := if r.2 then r.1 else { r.1 with sendingInProgress := false }
        ⟨{ s with voiceBuffer := "" }, true, false⟩
  | .cooldownFire =>
    if ¬s.cooldownTimer then ⟨s, false, false⟩
    else
      let s := { s with cooldownTimer := false }
      if ¬s.isAlwaysListening then ⟨s, false, false⟩
      else if s.isRecording then ⟨s, false, true⟩
      else ⟨updateVoiceModalState s .listening none none, false, true⟩
  | .retryFire =>
    if s.isAlwaysListening then
      if s.isRecording then ⟨s, false, true⟩
      else ⟨updateVoiceModalState s .listening none none, false, true⟩
    else ⟨s, false, false⟩
  | .restartCheckFire =>
    if ¬s.isAssistantSpeaking ∧ s.isAlwaysListening then
      ⟨restartRecognitionAfterSpeaking s, false, true⟩
    else ⟨s, false, false⟩
  | .sendOk resp =>
    if s.inFlight = 0 then ⟨s, false, false⟩
    else
      let s := { s with inFlight := s.inFlight - 1 }
      let s := { s with
        lastAssistantDOM := some (if resp = "" then "[Sin respuesta]" else resp) }
      let s := { s with
        lastAssistantMessage := jsToLower (jsTrim resp)
        lastAssistantText := jsTrim resp }
      if s.isAlwaysListening ∧ resp ≠ "" then
        let s := updateVoiceModalState s .thinking none none
        let s := { s with isAssistantSpeaking := false, silenceTimer := false }
        let s := playAssistantAudioStep s resp
        ⟨{ s with isProcessingVoice := false, sendingInProgress := false }, false, false⟩
      else
        let s := updateVoiceModalState s .listening none none
        let s := { s with liveTranscript := "" }
        ⟨{ s with isProcessingVoice := false, sendingInProgress := false }, false, false⟩
  | .sendHttpErr =>
    if s.inFlight = 0 then ⟨s, false, false⟩
    else
      let s := { s with inFlight := s.inFlight - 1 }
      let s := updateVoiceModalState s .error none none
      ⟨{ s with isProcessingVoice := false, sendingInProgress := false }, false, false⟩
  | .sendNetErr =>
    if s.inFlight = 0 then ⟨s, false, false⟩
    else
      let s := { s with inFlight := s.inFlight - 1 }
      let s := updateVoiceModalState s .error none none
      let msg := "⚠️ Error al comunicarme con NOVA. Verifica tu conexión e intenta de nuevo."
      let s := { s with lastAssistantDOM := some msg }
      ⟨{ s with isProcessingVoice := false, sendingInProgress := false }, false, false⟩
  | .ttsEnd =>
    ⟨restartRecognitionAfterSpeaking { s with isAssistantSpeaking := false }, false, true⟩
  | .ttsErr =>
    let s := { s with isAssistantSpeaking := false }
    let s := updateVoiceModalState s .ready none none
    ⟨restartRecognitionAfterSpeaking s, false, true⟩
  | .buttonSend text =>
    let t := jsTrim text
    if t ≠ "" ∧ ¬s.isLoading then
      let r := sendMessageToNovaCall s t
      ⟨{ r.1 with voiceBuffer := "" }, false, false⟩
    else ⟨s, false, false⟩

/-- Runs a sequence of events from a state. -/
def run (s : VState) : List VEvent → VState
  | [] => s
  | e :: es => run (step s e).state es

/-- `dispatchWhileSpeaking s evs` is true when some event in `evs` dispatches
the buffered utterance through the silence timer while the assistant's
playback is in progress in the state the handler starts from. -/
def dispatchWhileSpeaking (s : VState) : List VEvent → Bool
  | [] => false
  | e :: es =>
    (s.isAssistantSpeaking && (step s e).dispatched) ||
      dispatchWhileSpeaking (step s e).state es

/-- The reachable-state invariant of the voice session: at most one
`/api/chat` request is outstanding, an outstanding request implies
`isProcessingVoice`, and no silence timer is pending while the assistant is
speaking. -/
def Inv (s : VState) : Prop :=
  (s.inFlight ≠ 0 → s.isProcessingVoice = true) ∧
  s.inFlight ≤ 1 ∧
  (s.isAssistantSpeaking = true → s.silenceTimer = false)

/-! ### Supporting lemmas: the Levenshtein table computes an edit distance -/

theorem lev_nil_right (xs : List Char) : lev xs [] = xs.length := by
  cases xs <;> simp [lev]

theorem lev_self (xs : List Char) : lev xs xs = 0 := by
  induction xs with
  | nil => simp [lev]
  | cons x xs ih => simp [lev, ih]

theorem lev_symm_aux : ∀ (n : Nat) (xs ys : List Char),
    xs.length + ys.length ≤ n → lev xs ys = lev ys xs := by
  intro n
  induction n with
  | zero =>
    intro xs ys h
    match xs, ys with
    | [], [] => rfl
    | x :: xs, _ => simp at h
    | [], y :: ys => simp at h
  | succ n ih =>
    intro xs ys h
    match xs, ys with
    | [], ys => simp [lev, lev_nil_right]
    | x :: xs, [] => simp [lev, lev_nil_right]
    | x :: xs, y :: ys =>
      have h1 : xs.length + (y :: ys).length ≤ n := by
        simp at h ⊢; omega
      have h2 : (x :: xs).length + ys.length ≤ n := by
        simp at h ⊢; omega
      have h3 : xs.length + ys.length ≤ n := by
        simp at h ⊢; omega
      by_cases hxy : x = y
      · subst hxy
        simp [lev, ih _ _ h3]
      · have hyx : ¬(y = x) := fun hc => hxy hc.symm
        simp only [lev, if_neg hxy, if_neg hyx]
        rw [ih _ _ h1, ih _ _ h2, ih _ _ h3]
        omega

theorem lev_symm (xs ys : List Char) : lev xs ys = lev ys xs :=
  lev_symm_aux (xs.length + ys.length) xs ys (Nat.le_refl _)

theorem map_scanl_cons_eq {γ : Type} (g : List Char → γ)
    (l : List Char) (b : List Char) :
    (List.scanl (fun r x => x :: r) b l).map g
      = g b :: ((List.scanl (fun r x => x :: r) b l).tail).map g := by
  cases l <;> simp [List.scanl_nil, List.scanl_cons]

theorem headD_map_scanl {γ : Type} (g : List Char → γ)
    (l : List Char) (b : List Char) (d : γ) :
    ((List.scanl (fun r x => x :: r) b l).map g).headD d = g b := by
  cases l <;> simp [List.scanl_nil, List.scanl_cons]

theorem levRowAux_spec (y : Char) (rb : List Char) :
    ∀ (as ra : List Char),
      levRowAux as y (lev ra (y :: rb))
          ((List.scanl (fun r x => x :: r) ra as).map (fun r => lev r rb))
        = ((List.scanl (fun r x => x :: r) ra as).tail).map (fun r => lev r (y :: rb)) := by
  intro as
  induction as with
  | nil => intro ra; simp [List.scanl_nil, levRowAux]
  | cons x as ih =>
    intro ra
    rw [List.scanl_cons]
    simp only [List.singleton_append, List.map_cons, List.tail_cons]
    simp only [levRowAux]
    rw [headD_map_scanl (fun r => lev r rb) as (x :: ra) 0]
    have hcell : (if y = x then lev ra rb
        else min (lev ra rb + 1) (min (lev ra (y :: rb) + 1) (lev (x :: ra) rb + 1)))
        = lev (x :: ra) (y :: rb) := by
      by_cases hxy : x = y
      · subst hxy
        simp [lev]
      · have hyx : ¬(y = x) := fun hc => hxy hc.symm
        simp only [lev, if_neg hxy, if_neg hyx]
        omega
    rw [hcell]
    rw [ih (x :: ra)]
    rw [map_scanl_cons_eq (fun r => lev r (y :: rb)) as (x :: ra)]

theorem levLoop_spec (a : List Char) :
    ∀ (bs rb : List Char),
      levLoop a bs (rb.length + 1)
          ((List.scanl (fun r x => x :: r) [] a).map (fun r => lev r rb))
        = (List.scanl (fun r x => x :: r) [] a).map
            (fun r => lev r (bs.reverse ++ rb)) := by
  intro bs
  induction bs with
  | nil => intro rb; simp [levLoop]
  | cons y bs ih =>
    intro rb
    simp only [levLoop]
    have hrow : (rb.length + 1) :: levRowAux a y (rb.length + 1)
          ((List.scanl (fun r x => x :: r) [] a).map (fun r => lev r rb))
        = (List.scanl (fun r x => x :: r) [] a).map (fun r => lev r (y :: rb)) := by
      have hleft : lev ([] : List Char) (y :: rb) = rb.length + 1 := by
        simp [lev]
      rw [map_scanl_cons_eq (fun r => lev r (y :: rb)) a []]
      rw [← hleft]
      rw [← levRowAux_spec y rb a []]
    rw [hrow]
    have := ih (y :: rb)
    simp only [List.length_cons] at this
    rw [this]
    have harr : bs.reverse ++ (y :: rb) = (y :: bs).reverse ++ rb := by
      simp
    rw [harr]

theorem scanl_cons_lengths :
    ∀ (as ra : List Char),
      (List.scanl (fun r x => x :: r) ra as).map List.length
        = List.range' ra.length (as.length + 1) := by
  intro as
  induction as with
  | nil => intro ra; simp [List.scanl_nil, List.range']
  | cons x as ih =>
    intro ra
    rw [List.scanl_cons]
    simp only [List.singleton_append, List.map_cons]
    rw [ih (x :: ra)]
    simp [List.range']

theorem foldl_cons_reverse :
    ∀ (as ra : List Char), as.foldl (fun r x => x :: r) ra = as.reverse ++ ra := by
  intro as
  induction as with
  | nil => intro ra; simp
  | cons x as ih =>
    intro ra
    simp only [List.foldl_cons, List.reverse_cons]
    rw [ih (x :: ra)]
    simp

theorem getLastD_map_scanl {γ : Type} (g : List Char → γ) :
    ∀ (as ra : List Char) (d : γ),
      ((List.scanl (fun r x => x :: r) ra as).map g).getLastD d
        = g (as.foldl (fun r x => x :: r) ra) := by
  intro as
  induction as with
  | nil => intro ra d; simp [List.scanl_nil]
  | cons x as ih =>
    intro ra d
    rw [List.scanl_cons]
    simp only [List.singleton_append, List.map_cons, List.getLastD_cons]
    rw [ih (x :: ra)]
    simp

/-- The dynamic-programming table of `levenshteinDistance` computes the edit
distance of the (reversed) inputs: every cell of row `i` holds the distance
between the corresponding reversed prefixes. -/
theorem levenshteinDistance_eq (a b : String) :
    levenshteinDistance a b = lev a.data.reverse b.data.reverse := by
  unfold levenshteinDistance
  by_cases ha : a.length = 0
  · have ha' : a.data = [] := by
      have : a.data.length = 0 := ha
      exact List.length_eq_zero.mp this
    simp [ha, ha', lev]
  · by_cases hb : b.length = 0
    · have hb' : b.data = [] := by
        have : b.data.length = 0 := hb
        exact List.length_eq_zero.mp this
      simp [ha, hb, hb', lev_nil_right]
    · simp only [if_neg ha, if_neg hb]
      have hinit : List.range (a.data.length + 1)
          = (List.scanl (fun r x => x :: r) [] a.data).map (fun r => lev r []) := by
        have h1 : (List.scanl (fun r x => x :: r) ([] : List Char) a.data).map
            (fun r => lev r []) = (List.scanl (fun r x => x :: r) ([] : List Char) a.data).map
            List.length := by
          apply List.map_congr_left
          intro r _
          exact lev_nil_right r
        rw [h1, scanl_cons_lengths a.data []]
        simp [List.range_eq_range']
      rw [hinit]
      have hloop := levLoop_spec a.data b.data []
      simp only [List.length_nil, Nat.zero_add, List.append_nil] at hloop
      rw [hloop]
      rw [getLastD_map_scanl (fun r => lev r b.data.reverse) a.data [] 0]
      rw [foldl_cons_reverse a.data []]
      simp

/-! ### Supporting lemmas: the session invariant is preserved by every event -/

theorem inv_init : Inv initState := by
  refine ⟨fun h => absurd rfl h, ?_, fun h => rfl⟩
  simp [initState]

theorem inv_step (s : VState) (e : VEvent) (h : Inv s) : Inv (step s e).state := by
  obtain ⟨h1, h2, h3⟩ := h
  cases e <;>
    simp only [step, Inv, updateVoiceModalState, restartRecognitionAfterSpeaking,
      sendMessageToNovaCall, playAssistantAudioStep] <;>
    (repeat' split) <;>
    simp_all

theorem inv_run : ∀ (evs : List VEvent) (s : VState), Inv s → Inv (run s evs) := by
  intro evs
  induction evs with
  | nil => intro s h; exact h
  | cons e es ih => intro s h; exact ih _ (inv_step s e h)

theorem dispatched_requires_pending_timer (s : VState) (e : VEvent)
    (h : (step s e).dispatched = true) : s.silenceTimer = true := by
  cases e <;>
    simp only [step, updateVoiceModalState, restartRecognitionAfterSpeaking,
      sendMessageToNovaCall, playAssistantAudioStep] at h <;>
    (repeat' split at h) <;>
    simp_all

theorem dispatchWhileSpeaking_false_of_inv :
    ∀ (evs : List VEvent) (s : VState), Inv s → dispatchWhileSpeaking s evs = false := by
  intro evs
  induction evs with
  | nil => intro s _; rfl
  | cons e es ih =>
    intro s h
    simp only [dispatchWhileSpeaking, Bool.or_eq_false_iff, Bool.and_eq_false_iff]
    refine ⟨?_, ih _ (inv_step s e h)⟩
    by_cases hs : s.isAssistantSpeaking = true
    · right
      by_cases hd : (step s e).dispatched = true
      · have := dispatched_requires_pending_timer s e hd
        have := h.2.2 hs
        simp_all
      · simpa using hd
    · left
      simpa using hs

/-! ### Claim theorems -/

/-- C1: for every session at most one send call is ever in flight at a time:
the silence-timer dispatch is gated by `sendingInProgress` (set before
`sendMessageToNova` is invoked, cleared when its promise settles) and
`sendMessageToNova` returns without issuing a request while
`isProcessingVoice` is true, so along every event sequence from the initial
module state at most one `/api/chat` request is outstanding. -/
theorem voice_single_send_in_flight (evs : List VEvent) :
    (run initState evs).inFlight ≤ 1 :=
  (inv_run evs initState inv_init).2.1

/-- C2: in every reachable execution the buffered utterance is never
dispatched through the silence timer while a playback job is in progress:
`sendMessageToNova` cancels the pending silence timer before
`playAssistantAudio` sets `isAssistantSpeaking`, and every recognition event
arriving during playback clears the buffer and cancels the timer, so no
silence-timer callback can call `sendMessageToNova` while
`isAssistantSpeaking` holds. -/
theorem voice_no_dispatch_while_assistant_speaking (evs : List VEvent) :
    dispatchWhileSpeaking initState evs = false :=
  dispatchWhileSpeaking_false_of_inv evs initState inv_init

/-- C3: while the assistant is speaking (or in the post-speech cooldown),
`recognition.onresult` discards the event entirely: the utterance buffer is
cleared, any pending silence timer is cancelled, the live transcript is
emptied, and the handler returns before any echo filtering, buffering or
dispatch logic runs (nothing else in the state changes and nothing is
dispatched). -/
theorem recResult_discarded_while_speaking (s : VState) (raw : String) (isFinal : Bool)
    (h : s.isAssistantSpeaking = true ∨ s.cooldownAfterSpeaking = true) :
    step s (.recResult raw isFinal)
      = ⟨{ s with voiceBuffer := "", silenceTimer := false, liveTranscript := "" },
          false, false⟩ := by
  simp only [step]
  rw [if_pos h]

theorem recResult_discarded_while_speaking_witness :
    (({ initState with isAssistantSpeaking := true } : VState).isAssistantSpeaking = true ∨
      ({ initState with isAssistantSpeaking := true } : VState).cooldownAfterSpeaking = true) ∧
    step { initState with isAssistantSpeaking := true } (.recResult "hola" false)
      = ⟨{ { initState with isAssistantSpeaking := true } with
            voiceBuffer := "", silenceTimer := false, liveTranscript := "" },
          false, false⟩ :=
  ⟨Or.inl rfl,
    recResult_discarded_while_speaking { initState with isAssistantSpeaking := true }
      "hola" false (Or.inl rfl)⟩

/-- C4 as stated is false on the code: for the reference "soleado" and the
candidate "quiero hablar sobre musica soleado" both token sets are non-empty
and rules 1 and 2 do not fire, the fraction of candidate tokens matching a
reference token is 1/5 (not above 0.8, so the claim says no echo), yet
`isTooSimilarToLastAssistant` flags an echo because it divides by
`min(referenceTokens, candidateTokens) = 1`. -/
theorem similarity_rule3_denominator_counterexample :
    isTooSimilarToLastAssistant "soleado" "quiero hablar sobre musica soleado" = true ∧
    specRule3Echo "quiero hablar sobre musica soleado" "soleado" = false ∧
    jsToLower "soleado" ≠ jsToLower "quiero hablar sobre musica soleado" ∧
    jsIncludes (jsToLower "soleado")
      (jsToLower "quiero hablar sobre musica soleado") = false ∧
    (tokenizeLong (jsToLower "soleado")).length ≠ 0 ∧
    (tokenizeLong (jsToLower "quiero hablar sobre musica soleado")).length ≠ 0 := by
  refine ⟨?_, ?_, ?_, ?_, ?_, ?_⟩ <;> decide

/-- C4 (amended): for candidate and reference strings reaching rule 3 (rules
1 and 2 do not fire, both token sets non-empty), the filter flags echo
exactly when the number of candidate tokens that match some reference token
(substring containment in either direction or edit distance at most 2)
exceeds 0.8 of the minimum of the reference and candidate token counts —
the denominator is that minimum, not the candidate token count. -/
theorem similarity_rule3_min_denominator (reference candidate : String)
    (h1 : ¬(reference = "" ∨ candidate = ""))
    (h2 : (jsToLower reference) ≠ (jsToLower candidate))
    (h3 : (jsIncludes (jsToLower reference) (jsToLower candidate) &&
        decide (5 * (jsToLower candidate).length > 4 * (jsToLower reference).length)) = false)
    (h4 : ¬((tokenizeLong (jsToLower reference)).length = 0 ∨
        (tokenizeLong (jsToLower candidate)).length = 0)) :
    isTooSimilarToLastAssistant reference candidate =
      decide (5 * ((tokenizeLong (jsToLower candidate)).filter (fun word =>
          (tokenizeLong (jsToLower reference)).any (fun referenceWord =>
            jsIncludes referenceWord word || jsIncludes word referenceWord ||
              decide (levenshteinDistance word referenceWord ≤ 2)))).length
        > 4 * min (tokenizeLong (jsToLower reference)).length
            (tokenizeLong (jsToLower candidate)).length) := by
  simp only [isTooSimilarToLastAssistant]
  rw [if_neg h1, if_neg h2, if_neg (by simp [h3]), if_neg h4]

theorem similarity_rule3_min_denominator_witness :
    (¬(("hola amigo" : String) = "" ∨ ("adios amigo" : String) = "")) ∧
    ((jsToLower "hola amigo") ≠ (jsToLower "adios amigo")) ∧
    isTooSimilarToLastAssistant "hola amigo" "adios amigo" =
      decide (5 * ((tokenizeLong (jsToLower "adios amigo")).filter (fun word =>
          (tokenizeLong (jsToLower "hola amigo")).any (fun referenceWord =>
            jsIncludes referenceWord word || jsIncludes word referenceWord ||
              decide (levenshteinDistance word referenceWord ≤ 2)))).length
        > 4 * min (tokenizeLong (jsToLower "hola amigo")).length
            (tokenizeLong (jsToLower "adios amigo")).length) :=
  ⟨by decide, by decide,
    similarity_rule3_min_denominator "hola amigo" "adios amigo"
      (by decide) (by decide) (by decide) (by decide)⟩

/-- C5: when the assistant response is longer than 2800 characters, the
playback path hands only the first 2800 characters plus an ellipsis to the
speech-synthesis job while `lastAssistantText` and the on-screen live
transcript both receive the full untruncated text. -/
theorem playback_truncates_only_spoken_text (s : VState) (resp : String)
    (h1 : s.inFlight ≠ 0) (h2 : s.isAlwaysListening = true) (h3 : resp ≠ "")
    (h4 : s.ttsSupported = true) (h5 : resp.length > 2800) :
    ((step s (.sendOk resp)).state.ttsText = (jsSlice resp 2800).push '…') ∧
    ((step s (.sendOk resp)).state.lastAssistantText = resp) ∧
    ((step s (.sendOk resp)).state.liveTranscript = resp) := by
  simp only [step, updateVoiceModalState, playAssistantAudioStep, MAX_TTS_CHARS]
  rw [if_neg h1]
  simp [h2, h3, h4, h5]

theorem playback_truncates_only_spoken_text_witness :
    (({ initState with inFlight := 1, isAlwaysListening := true } : VState).inFlight ≠ 0) ∧
    ((String.mk (List.replicate 2801 'a')).length > 2800) ∧
    ((step { initState with inFlight := 1, isAlwaysListening := true }
        (.sendOk (String.mk (List.replicate 2801 'a')))).state.ttsText
      = (jsSlice (String.mk (List.replicate 2801 'a')) 2800).push '…') :=
  ⟨by decide,
    by show (List.replicate 2801 'a').length > 2800; rw [List.length_replicate]; omega,
    (playback_truncates_only_spoken_text
      { initState with inFlight := 1, isAlwaysListening := true }
      (String.mk (List.replicate 2801 'a'))
      (by decide) rfl (by decide)
      rfl (by show (List.replicate 2801 'a').length > 2800; rw [List.length_replicate]; omega)).1⟩

/-- C6: when the recognizer reports a fatal error code ("not-allowed",
"permission-denied" or "service-not-allowed"), the session is forced
inactive, the state becomes Error with the user-visible default message, no
restart of capture is attempted, and the subsequent end-of-capture event
does not attempt one either. -/
theorem fatal_error_forces_inactive_no_restart (s : VState) (code : String)
    (h : code ∈ fatalErrors) :
    ((step s (.recError code)).state.isAlwaysListening = false) ∧
    ((step s (.recError code)).state.currentVoiceState = .error) ∧
    ((step s (.recError code)).state.voiceTextLabel
        = "Intenta hablar de nuevo o revisa tu micrófono.") ∧
    ((step s (.recError code)).restarted = false) ∧
    ((step (step s (.recError code)).state .recEnd).restarted = false) := by
  simp only [step, updateVoiceModalState]
  rw [if_pos h]
  simp [step, updateVoiceModalState]

theorem fatal_error_forces_inactive_no_restart_witness :
    (("not-allowed" : String) ∈ fatalErrors) ∧
    ((step initState (.recError "not-allowed")).state.isAlwaysListening = false) ∧
    ((step initState (.recError "not-allowed")).state.currentVoiceState = .error) ∧
    ((step initState (.recError "not-allowed")).restarted = false) :=
  ⟨by decide,
    (fatal_error_forces_inactive_no_restart initState "not-allowed" (by decide)).1,
    (fatal_error_forces_inactive_no_restart initState "not-allowed" (by decide)).2.1,
    (fatal_error_forces_inactive_no_restart initState "not-allowed" (by decide)).2.2.2.1⟩

/-- C7 as stated is false on the code: `stopVoiceSession` never sets the
session state to Idle — it leaves `currentVoiceState` unchanged, and the
end-of-capture handler triggered by the manual stop sets it to Ready, so
after enabling, capture starting and disabling, the state is Ready, not
Idle. -/
theorem stop_session_reaches_ready_not_idle :
    (run initState [.startSession, .recStart, .stopSession, .recEnd]).currentVoiceState
        = VoiceState.ready ∧
    VoiceState.ready ≠ VoiceState.idle := by
  refine ⟨?_, by decide⟩
  rfl

/-- C7 (amended): after `stopVoiceSession` the manual-stop flag is set,
continuous listening is off, the silence timer, the cooldown timer and the
utterance buffer are all cleared, but the session state is left unchanged by
`stopVoiceSession` itself; the subsequent end-of-capture handler then sets
it to Ready (not Idle). -/
theorem stop_session_amended (s : VState) :
    ((step s .stopSession).state.isManuallyStopping = true) ∧
    ((step s .stopSession).state.isAlwaysListening = false) ∧
    ((step s .stopSession).state.silenceTimer = false) ∧
    ((step s .stopSession).state.cooldownTimer = false) ∧
    ((step s .stopSession).state.voiceBuffer = "") ∧
    ((step s .stopSession).state.currentVoiceState = s.currentVoiceState) ∧
    ((step (step s .stopSession).state .recEnd).state.currentVoiceState
        = VoiceState.ready) := by
  simp [step, updateVoiceModalState]

/-- C8: the edit-distance function of main.js is symmetric, and the distance
of every string to itself is zero. -/
theorem levenshtein_symm_and_self_zero (a b : String) :
    levenshteinDistance a b = levenshteinDistance b a ∧
    levenshteinDistance a a = 0 := by
  constructor
  · rw [levenshteinDistance_eq, levenshteinDistance_eq, lev_symm]
  · rw [levenshteinDistance_eq, lev_self]

/-- C9: beyond the similarity filter, `recognition.onresult` discards any
non-empty transcript that occurs verbatim inside `lastAssistantMessage`
(with no minimum length-ratio requirement): under those hypotheses nothing
is dispatched and the handler either returns with the state unchanged (the
verbatim-substring check) or with only the buffer, timer and live transcript
cleared (when the similarity filter fired first). -/
theorem verbatim_substring_transcript_dropped (s : VState) (raw : String) (isFinal : Bool)
    (h1 : s.isAssistantSpeaking = false) (h2 : s.cooldownAfterSpeaking = false)
    (h3 : s.lastAssistantMessage ≠ "") (h4 : jsToLower (jsTrim raw) ≠ "")
    (h5 : jsIncludes s.lastAssistantMessage (jsToLower (jsTrim raw)) = true) :
    ((step s (.recResult raw isFinal)).dispatched = false) ∧
    ((step s (.recResult raw isFinal)).state = s ∨
      (step s (.recResult raw isFinal)).state
        = { s with voiceBuffer := "", silenceTimer := false, liveTranscript := "" }) := by
  simp only [step]
  rw [if_neg (by simp [h1, h2])]
  by_cases hsim : isTooSimilarToLastAssistant s.lastAssistantText (jsToLower (jsTrim raw)) = true
  · rw [if_pos hsim]
    exact ⟨rfl, Or.inr rfl⟩
  · rw [if_neg (by simpa using hsim), if_pos ⟨h3, h4, h5⟩]
    exact ⟨rfl, Or.inl rfl⟩

theorem verbatim_substring_transcript_dropped_witness :
    (({ initState with lastAssistantMessage := "hola mundo" } : VState).lastAssistantMessage
        ≠ "") ∧
    (jsToLower (jsTrim "hola") ≠ "") ∧
    (jsIncludes ({ initState with lastAssistantMessage := "hola mundo" }
        : VState).lastAssistantMessage (jsToLower (jsTrim "hola")) = true) ∧
    (((step { initState with lastAssistantMessage := "hola mundo" }
        (.recResult "hola" false)).dispatched = false) ∧
      ((step { initState with lastAssistantMessage := "hola mundo" }
          (.recResult "hola" false)).state
          = { initState with lastAssistantMessage := "hola mundo" } ∨
        (step { initState with lastAssistantMessage := "hola mundo" }
          (.recResult "hola" false)).state
          = { { initState with lastAssistantMessage := "hola mundo" } with
              voiceBuffer := "", silenceTimer := false, liveTranscript := "" })) :=
  ⟨by decide, by decide, by decide,
    verbatim_substring_transcript_dropped
      { initState with lastAssistantMessage := "hola mundo" } "hola" false
      rfl rfl (by decide) (by decide) (by decide)⟩

/-- C10: if `lastAssistantText` is the empty string — as it is right after
`startVoiceSession`, which resets it — then `isTooSimilarToLastAssistant`
returns false for every candidate transcript, so before the assistant has
spoken no recognition event is discarded as echo by the similarity filter. -/
theorem empty_lastAssistantText_never_echo (transcript : String) (s : VState) :
    isTooSimilarToLastAssistant "" transcript = false ∧
    (step s .startSession).state.lastAssistantText = "" := by
  constructor
  · simp [isTooSimilarToLastAssistant]
  · simp only [step, updateVoiceModalState]
    split <;> rfl

end Nova
